import Mathlib

/-!
Shallow embedding of the authentication service in
`backend/services/auth_service.py` (classes `PasswordUtils`, `JWTUtils`,
`AuthService`) of the repository under verification.

Modelling conventions:
- Machine time (`utc_now()`) is passed explicitly as a `now : Nat` parameter
  (seconds); each entry point reads one consistent `now`.
- `generate_uuid()` and the `secrets` random-token generators are modelled by
  a freshness counter `fresh` carried in the state: each generated identifier
  or raw token is the next counter value, so distinct generations are distinct.
- bcrypt hashing is modelled as the identity on the password string with
  `verify_password p h := p == h`, capturing exactly the behaviour
  `checkpw(p, hashpw(p')) = (p = p')` that the service relies on.
- `hashlib.sha256(...).hexdigest()` over raw tokens is modelled as an
  injective deterministic function on the Nat token encoding (the identity).
- The SQLAlchemy session is modelled as an explicit record of lists; `.first()`
  is `List.find?` over insertion order, `.update(...)` is `List.map`, `db.add`
  appends.  `db.commit` / `db.rollback` need no model because no exception
  paths are reachable in the pure embedding.
- Audit logging (`_log_action`) is modelled as the list of action names.
- The `ip_address` / `user_agent` metadata parameters and the tenant data
  directory side effects are not modelled: no claim mentions them.
-/

/-- Python `str.lower()` (ASCII range, the only range the service's data
uses), implemented structurally over the character list. -/
def pyLower (s : String) : String := String.mk (s.toList.map Char.toLower)

/-- Python `str.strip()` whitespace class. -/
def isPySpace (c : Char) : Bool :=
  c == ' ' || c == '\t' || c == '\n' || c == '\r' || c == '\x0b' || c == '\x0c'

/-- Python `str.strip()`: drop whitespace from both ends. -/
def pyStrip (s : String) : String :=
  String.mk (((s.toList.dropWhile isPySpace).reverse.dropWhile isPySpace).reverse)

/-- Python `str.split(sep)` for a one-character separator, over char lists:
`splitChar sep l` returns the (possibly empty) segments between occurrences
of `sep`. -/
def splitChar (sep : Char) : List Char → List (List Char)
  | [] => [[]]
  | c :: rest =>
    let r := splitChar sep rest
    if c == sep then [] :: r
    else
      match r with
      | h :: t => (c :: h) :: t
      | [] => [[c]]

/-- Model of `PasswordUtils.hash_password` (bcrypt): see module conventions. -/
def hash_password (password : String) : String := password

/-- Model of `PasswordUtils.verify_password` (bcrypt checkpw). -/
def verify_password (password passwordHash : String) : Bool :=
  password == passwordHash

/-- The deny-list of `PasswordUtils.validate_password_strength`. -/
def common_passwords : List String :=
  ["password", "password123", "123456", "qwerty", "admin"]

/-- `PasswordUtils.validate_password_strength`: length 8..128, requires an
uppercase letter, a lowercase letter and a digit (REQUIRE_SPECIAL is False in
the source, so that branch is absent), rejects the common-password deny-list.
Returns `(is_valid, errors)`. -/
def validate_password_strength (password : String) : Bool × List String :=
  let errors :=
    (if password.length < 8 then ["Password must be at least 8 characters"] else []) ++
    (if password.length > 128 then ["Password must be at most 128 characters"] else []) ++
    (if !password.toList.any Char.isUpper then
      ["Password must contain at least one uppercase letter"] else []) ++
    (if !password.toList.any Char.isLower then
      ["Password must contain at least one lowercase letter"] else []) ++
    (if !password.toList.any Char.isDigit then
      ["Password must contain at least one digit"] else []) ++
    (if common_passwords.contains (pyLower password) then ["Password is too common"] else [])
  (errors.isEmpty, errors)

/-- Characters of the local part of `AuthService._validate_email`
(`[a-zA-Z0-9._%+-]`). -/
def isLocalChar (c : Char) : Bool :=
  c.isAlphanum || c == '.' || c == '_' || c == '%' || c == '+' || c == '-'

/-- Characters of the domain part (`[a-zA-Z0-9.-]`). -/
def isDomainChar (c : Char) : Bool :=
  c.isAlphanum || c == '.' || c == '-'

/-- `AuthService._validate_email`: the anchored pattern
`[a-zA-Z0-9._%+-]+@[a-zA-Z0-9.-]+\.[a-zA-Z]\x7b2,\x7d` matches exactly when the
string splits as `local@domain.tld` at its unique `@` and last `.`, with a
nonempty local part over the local class, a nonempty pre-tld domain over the
domain class, and an alphabetic tld of length at least 2. -/
def valid_email (email : String) : Bool :=
  match splitChar '@' email.toList with
  | [lpart, dpart] =>
    let parts := splitChar '.' dpart
    match parts.getLast? with
    | none => false
    | some tld =>
      let front := List.intercalate ['.'] parts.dropLast
      (!lpart.isEmpty) && lpart.all isLocalChar &&
      decide (2 ≤ parts.length) && (!front.isEmpty) && front.all isDomainChar &&
      decide (2 ≤ tld.length) && tld.all Char.isAlpha
  | _ => false

/-- `email.lower().strip()` as applied by `signup` and `login`. -/
def normalize_email (email : String) : String := pyStrip (pyLower email)

/-- Modelled from the spec: `database/config.py` is not under `src/`; the
access-token TTL is a short-lived window (seconds). No claim depends on the
numeric value. -/
def JWT_ACCESS_TOKEN_EXPIRES : Nat := 3600

/-- Modelled from the spec: `database/config.py` is not under `src/`; the
refresh-token default TTL is 7 days. No claim depends on the numeric value. -/
def JWT_REFRESH_TOKEN_EXPIRES : Nat := 604800

/-- Model of `hashlib.sha256(token).hexdigest()`: an injective deterministic
hash on the Nat encoding of raw tokens (see module conventions). -/
def sha256 (t : Nat) : Nat := t

/-- `JWTUtils.hash_refresh_token`. -/
def hash_refresh_token (t : Nat) : Nat := sha256 t

/-- The JWT access-token payload built by `JWTUtils.create_access_token`. -/
structure Payload where
  sub : Nat
  tenantId : Nat
  email : String
  role : String
  jti : Nat
  iat : Nat
  exp : Nat
  typ : String
deriving Repr, DecidableEq

/-- An access token presented to the service: either not a validly signed JWT
under the service key, or a correctly signed payload. -/
inductive AccessToken where
  | malformed
  | signed (p : Payload)
deriving Repr, DecidableEq

/-- `JWTUtils.decode_access_token`: signature check, then expiry
(PyJWT raises ExpiredSignatureError when `exp ≤ now`), then the type marker.
Returns `(payload, error)`. -/
def decode_access_token (token : AccessToken) (now : Nat) : Option Payload × Option String :=
  match token with
  | .malformed => (none, some "Invalid token")
  | .signed p =>
    if p.exp ≤ now then (none, some "Token has expired")
    else if p.typ != "access" then (none, some "Invalid token type")
    else (some p, none)

/-- Row of the `users` table as used by the service. -/
structure User where
  id : Nat
  tenantId : Nat
  email : String
  passwordHash : String
  fullName : String := ""
  role : String := "admin"
  isActive : Bool := true
  failedLoginAttempts : Nat := 0
  lockedUntil : Option Nat := none
  lastLoginAt : Option Nat := none
deriving Repr, DecidableEq

/-- Row of the `tenants` table as used by the service. -/
structure Tenant where
  id : Nat
  name : String := ""
  slug : String := ""
  plan : String := "free"
  isActive : Bool := true
deriving Repr, DecidableEq

/-- Row of the `user_sessions` table as used by the service. -/
structure UserSession where
  id : Nat
  userId : Nat
  refreshTokenHash : Nat
  accessTokenJti : Nat
  expiresAt : Nat
  isRevoked : Bool := false
  revokedAt : Option Nat := none
  revokedReason : Option String := none
  lastUsedAt : Option Nat := none
deriving Repr, DecidableEq

/-- Row of the `password_reset_tokens` table as used by the service. -/
structure PasswordResetToken where
  id : Nat
  userId : Nat
  tokenHash : Nat
  expiresAt : Nat
  used : Bool := false
  usedAt : Option Nat := none
deriving Repr, DecidableEq

/-- `TokenPair` dataclass. -/
structure TokenPair where
  accessToken : AccessToken
  refreshToken : Nat
  accessExpiresAt : Nat
  refreshExpiresAt : Nat
deriving Repr, DecidableEq

/-- `AuthResult` dataclass. -/
structure AuthResult where
  success : Bool
  user : Option User := none
  tokens : Option TokenPair := none
  error : Option String := none
  errorCode : Option String := none
deriving Repr, DecidableEq

/-- `SignupData` dataclass (invite_code is unused by `signup`). -/
structure SignupData where
  email : String
  password : String
  fullName : String
  organizationName : Option String := none
deriving Repr, DecidableEq

/-- The persisted state the service reads and writes, plus the freshness
counter for `generate_uuid` / `secrets` token generation. -/
structure AuthState where
  users : List User
  tenants : List Tenant
  sessions : List UserSession
  resetTokens : List PasswordResetToken
  audit : List String
  fresh : Nat
deriving Repr, DecidableEq

/-- `AuthService._create_token_pair`: mints an access token with a fresh jti,
a fresh opaque refresh token, and inserts the session row binding them. -/
def create_token_pair (st : AuthState) (user : User) (tenant : Tenant) (now : Nat) :
    TokenPair × AuthState :=
  let jti := st.fresh
  let accessExpires := now + JWT_ACCESS_TOKEN_EXPIRES
  let accessTok : AccessToken := .signed
    { sub := user.id, tenantId := tenant.id, email := user.email, role := user.role,
      jti := jti, iat := now, exp := accessExpires, typ := "access" }
  let refreshTok := st.fresh + 1
  let refreshExpires := now + JWT_REFRESH_TOKEN_EXPIRES
  let sess : UserSession :=
    { id := st.fresh + 2, userId := user.id,
      refreshTokenHash := hash_refresh_token refreshTok,
      accessTokenJti := jti, expiresAt := refreshExpires }
  ({ accessToken := accessTok, refreshToken := refreshTok,
     accessExpiresAt := accessExpires, refreshExpiresAt := refreshExpires },
   { st with sessions := st.sessions ++ [sess], fresh := st.fresh + 3 })

/-- Keep-class of `AuthService._generate_tenant_slug`: `[a-z0-9]`. -/
def isSlugChar (c : Char) : Bool := c.isLower || c.isDigit

/-- Collapse runs of hyphens to a single hyphen, the effect of substituting
`[^a-z0-9]+` (one or more) by `-`. -/
def collapseDashes : List Char → List Char
  | [] => []
  | c :: rest =>
    let rest' := collapseDashes rest
    if c == '-' then
      match rest' with
      | '-' :: tail => '-' :: tail
      | _ => '-' :: rest'
    else c :: rest'

/-- The slugification step of `AuthService._generate_tenant_slug`:
lowercase+strip, replace runs of non-`[a-z0-9]` by `-`, strip `-`. -/
def slugify (name : String) : String :=
  let lowered := (pyStrip (pyLower name)).toList.map (fun c => if isSlugChar c then c else '-')
  let collapsed := collapseDashes lowered
  let stripped := ((collapsed.dropWhile (· == '-')).reverse.dropWhile (· == '-')).reverse
  String.mk stripped

/-- The uniqueness loop of `AuthService._generate_tenant_slug`, with explicit
fuel; `tenants.length + 1` candidate slugs always suffice since the candidates
are pairwise distinct strings. -/
def unique_slug_loop (tenants : List Tenant) (base : String) :
    Nat → String → Nat → String
  | 0, slug, _ => slug
  | fuel + 1, slug, counter =>
    if tenants.any (fun t => t.slug == slug) then
      unique_slug_loop tenants base fuel (base ++ "-" ++ toString counter) (counter + 1)
    else slug

/-- `AuthService._generate_tenant_slug`. -/
def generate_tenant_slug (tenants : List Tenant) (name : String) : String :=
  let base := slugify name
  unique_slug_loop tenants base (tenants.length + 1) base 1

/-- `AuthService.signup`. -/
def signup (st : AuthState) (data : SignupData) (now : Nat) : AuthResult × AuthState :=
  let email := normalize_email data.email
  if !(valid_email email) then
    ({ success := false, error := some "Invalid email format",
       errorCode := some "INVALID_EMAIL" }, st)
  else
    let v := validate_password_strength data.password
    if !v.1 then
      ({ success := false, error := some (String.intercalate "; " v.2),
         errorCode := some "WEAK_PASSWORD" }, st)
    else if (st.users.find? (fun u => u.email == email && u.isActive)).isSome then
      ({ success := false, error := some "An account with this email already exists",
         errorCode := some "EMAIL_EXISTS" }, st)
    else
      let orgName := data.organizationName.getD
        (data.fullName ++ (String.singleton '\'') ++ "s Organization")
      let slug := generate_tenant_slug st.tenants orgName
      let tenant : Tenant := { id := st.fresh, name := orgName, slug := slug }
      let user : User :=
        { id := st.fresh + 1, tenantId := tenant.id, email := email,
          passwordHash := hash_password data.password, fullName := data.fullName,
          role := "admin" }
      let st1 : AuthState :=
        { st with tenants := st.tenants ++ [tenant], users := st.users ++ [user],
                  fresh := st.fresh + 2 }
      let pair := create_token_pair st1 user tenant now
      let st2 := { pair.2 with audit := pair.2.audit ++ ["user.signup"] }
      ({ success := true, user := some user, tokens := some pair.1 }, st2)

/-- `user.locked_until and user.locked_until > utc_now()`. -/
def lockActive (u : User) (now : Nat) : Bool :=
  match u.lockedUntil with
  | some t => decide (now < t)
  | none => false

/-- The remaining-lock display `(user.locked_until - utc_now()).seconds // 60`
(`timedelta.seconds` is the sub-day seconds component). -/
def remainingLockMinutes (u : User) (now : Nat) : Nat :=
  match u.lockedUntil with
  | some t => ((t - now) % 86400) / 60
  | none => 0

/-- `AuthService.login`. -/
def login (st : AuthState) (email password : String) (now : Nat) :
    AuthResult × AuthState :=
  let email := normalize_email email
  match st.users.find? (fun u => u.email == email && u.isActive) with
  | none =>
    ({ success := false, error := some "Invalid email or password",
       errorCode := some "INVALID_CREDENTIALS" }, st)
  | some user =>
    if lockActive user now then
      ({ success := false,
         error := some ("Account is locked. Try again in " ++
           toString (remainingLockMinutes user now) ++ " minutes"),
         errorCode := some "ACCOUNT_LOCKED" }, st)
    else if !(verify_password password user.passwordHash) then
      let attempts := user.failedLoginAttempts + 1
      let newLock := if 5 ≤ attempts then some (now + 15 * 60) else user.lockedUntil
      let lockAudit := if 5 ≤ attempts then ["user.locked"] else []
      let st' := { st with
        users := st.users.map (fun u =>
          if u.id == user.id then
            { u with failedLoginAttempts := attempts, lockedUntil := newLock }
          else u),
        audit := st.audit ++ lockAudit }
      ({ success := false, error := some "Invalid email or password",
         errorCode := some "INVALID_CREDENTIALS" }, st')
    else
      match st.tenants.find? (fun t => t.id == user.tenantId) with
      | none =>
        ({ success := false, error := some "Login failed",
           errorCode := some "LOGIN_ERROR" }, st)
      | some tenant =>
        if !tenant.isActive then
          ({ success := false, error := some "Organization has been deactivated",
             errorCode := some "TENANT_INACTIVE" }, st)
        else
          let user' := { user with failedLoginAttempts := 0, lockedUntil := none,
                                   lastLoginAt := some now }
          let st1 := { st with users := st.users.map (fun u =>
            if u.id == user.id then user' else u) }
          let pair := create_token_pair st1 user' tenant now
          let st2 := { pair.2 with audit := pair.2.audit ++ ["user.login"] }
          ({ success := true, user := some user', tokens := some pair.1 }, st2)

/-- `AuthService.refresh_tokens`. -/
def refresh_tokens (st : AuthState) (refreshToken : Nat) (now : Nat) :
    AuthResult × AuthState :=
  let tokenHash := hash_refresh_token refreshToken
  match st.sessions.find? (fun s => s.refreshTokenHash == tokenHash && !s.isRevoked) with
  | none =>
    ({ success := false, error := some "Invalid refresh token",
       errorCode := some "INVALID_REFRESH_TOKEN" }, st)
  | some sess =>
    if sess.expiresAt < now then
      let st' := { st with sessions := st.sessions.map (fun s =>
        if s.id == sess.id then
          { s with isRevoked := true, revokedReason := some "expired" }
        else s) }
      ({ success := false, error := some "Refresh token has expired",
         errorCode := some "REFRESH_TOKEN_EXPIRED" }, st')
    else
      match st.users.find? (fun u => u.id == sess.userId) with
      | none =>
        ({ success := false, error := some "User not found or inactive",
           errorCode := some "USER_INACTIVE" }, st)
      | some user =>
        if !user.isActive then
          ({ success := false, error := some "User not found or inactive",
             errorCode := some "USER_INACTIVE" }, st)
        else
          match st.tenants.find? (fun t => t.id == user.tenantId) with
          | none =>
            ({ success := false, error := some "Organization is inactive",
               errorCode := some "TENANT_INACTIVE" }, st)
          | some tenant =>
            if !tenant.isActive then
              ({ success := false, error := some "Organization is inactive",
                 errorCode := some "TENANT_INACTIVE" }, st)
            else
              let st1 := { st with sessions := st.sessions.map (fun s =>
                if s.id == sess.id then
                  { s with isRevoked := true, revokedAt := some now,
                           revokedReason := some "rotated", lastUsedAt := some now }
                else s) }
              let pair := create_token_pair st1 user tenant now
              ({ success := true, user := some user, tokens := some pair.1 }, pair.2)

/-- `AuthService.logout`. -/
def logout (st : AuthState) (accessToken : AccessToken) (now : Nat) :
    Bool × AuthState :=
  match decode_access_token accessToken now with
  | (none, _) => (false, st)
  | (some payload, _) =>
    match st.sessions.find? (fun s =>
        s.userId == payload.sub && s.accessTokenJti == payload.jti && !s.isRevoked) with
    | none => (true, st)
    | some sess =>
      (true, { st with
        sessions := st.sessions.map (fun s =>
          if s.id == sess.id then
            { s with isRevoked := true, revokedAt := some now,
                     revokedReason := some "logout" }
          else s),
        audit := st.audit ++ ["user.logout"] })

/-- The query filter of `AuthService.logout_all_sessions`. -/
def shouldRevokeAll (userId : Nat) (exceptJti : Option Nat) (s : UserSession) : Bool :=
  s.userId == userId && !s.isRevoked &&
    (match exceptJti with
     | some j => s.accessTokenJti != j
     | none => true)

/-- `AuthService.logout_all_sessions`: returns `(count, state)`. -/
def logout_all_sessions (st : AuthState) (userId : Nat) (exceptJti : Option Nat)
    (now : Nat) : Nat × AuthState :=
  let count := (st.sessions.filter (shouldRevokeAll userId exceptJti)).length
  (count, { st with sessions := st.sessions.map (fun s =>
    if shouldRevokeAll userId exceptJti s then
      { s with isRevoked := true, revokedAt := some now,
               revokedReason := some "logout_all" }
    else s) })

/-- `AuthService.validate_access_token`: decode, then reject only when a
session row matching `(sub, jti)` exists and is revoked. -/
def validate_access_token (st : AuthState) (token : AccessToken) (now : Nat) :
    Option Payload × Option String :=
  match decode_access_token token now with
  | (none, e) => (none, e)
  | (some payload, _) =>
    match st.sessions.find? (fun s =>
        s.userId == payload.sub && s.accessTokenJti == payload.jti) with
    | some sess =>
      if sess.isRevoked then (none, some "Token has been revoked")
      else (some payload, none)
    | none => (some payload, none)

/-- `AuthService.change_password`: note the source calls
`self.logout_all_sessions(user_id)` with no `except_current_jti`. -/
def change_password (st : AuthState) (userId : Nat)
    (currentPassword newPassword : String) (logoutOtherSessions : Bool)
    (now : Nat) : (Bool × Option String) × AuthState :=
  match st.users.find? (fun u => u.id == userId) with
  | none => ((false, some "User not found"), st)
  | some user =>
    if !(verify_password currentPassword user.passwordHash) then
      ((false, some "Current password is incorrect"), st)
    else
      let v := validate_password_strength newPassword
      if !v.1 then ((false, some (String.intercalate "; " v.2)), st)
      else
        let st1 := { st with users := st.users.map (fun u =>
          if u.id == userId then { u with passwordHash := hash_password newPassword }
          else u) }
        let st2 := if logoutOtherSessions then (logout_all_sessions st1 userId none now).2
                   else st1
        ((true, none), { st2 with audit := st2.audit ++ ["user.password_changed"] })

/-- `AuthService.request_password_reset`: returns `(success, raw token?)`. -/
def request_password_reset (st : AuthState) (email : String) (now : Nat) :
    (Bool × Option Nat) × AuthState :=
  match st.users.find? (fun u => pyLower u.email == pyLower email && u.isActive) with
  | none => ((true, none), st)
  | some user =>
    match st.tenants.find? (fun t => t.id == user.tenantId) with
    | none => ((false, none), st)
    | some tenant =>
      if !tenant.isActive then ((true, none), st)
      else
        let rawToken := st.fresh
        let newTok : PasswordResetToken :=
          { id := st.fresh + 1, userId := user.id, tokenHash := sha256 rawToken,
            expiresAt := now + 60 * 60 }
        let st' := { st with
          resetTokens := (st.resetTokens.map (fun t =>
            if t.userId == user.id && !t.used then
              { t with used := true, usedAt := some now }
            else t)) ++ [newTok],
          fresh := st.fresh + 2,
          audit := st.audit ++ ["user.password_reset_requested"] }
        ((true, some rawToken), st')

/-- `AuthService.verify_reset_token`. -/
def verify_reset_token (st : AuthState) (token : Nat) (now : Nat) : Bool :=
  (st.resetTokens.find? (fun t =>
    t.tokenHash == sha256 token && !t.used && decide (now < t.expiresAt))).isSome

/-- `AuthService.reset_password`. -/
def reset_password (st : AuthState) (token : Nat) (newPassword : String)
    (now : Nat) : (Bool × Option String) × AuthState :=
  let v := validate_password_strength newPassword
  if !v.1 then
    ((false, some ("Password does not meet requirements: " ++
      String.intercalate ", " v.2)), st)
  else
    match st.resetTokens.find? (fun t => t.tokenHash == sha256 token && !t.used) with
    | none => ((false, some "Invalid or expired reset token"), st)
    | some rt =>
      if rt.expiresAt < now then ((false, some "Reset token has expired"), st)
      else
        match st.users.find? (fun u => u.id == rt.userId) with
        | none => ((false, some "User not found or inactive"), st)
        | some user =>
          if !user.isActive then ((false, some "User not found or inactive"), st)
          else
            ((true, none),
             { st with
               users := st.users.map (fun u =>
                 if u.id == user.id then
                   { u with passwordHash := hash_password newPassword,
                            failedLoginAttempts := 0, lockedUntil := none }
                 else u),
               resetTokens := st.resetTokens.map (fun t =>
                 if t.id == rt.id then { t with used := true, usedAt := some now }
                 else t),
               sessions := st.sessions.map (fun s =>
                 if s.userId == user.id && !s.isRevoked then
                   { s with isRevoked := true, revokedAt := some now,
                            revokedReason := some "password_reset" }
                 else s),
               audit := st.audit ++ ["user.password_reset_completed"] })

/-- A reset token is usable when unused and unexpired. -/
def usableResetToken (t : PasswordResetToken) (now : Nat) : Bool :=
  !t.used && decide (now < t.expiresAt)

/-- The §3 invariant: at most one usable reset token per user. -/
def atMostOneUsable (st : AuthState) (now : Nat) : Prop :=
  ∀ t1 ∈ st.resetTokens, ∀ t2 ∈ st.resetTokens,
    t1.userId = t2.userId →
    usableResetToken t1 now = true → usableResetToken t2 now = true → t1 = t2

/-! Concrete fixtures used by witnesses and counterexamples. -/

/-- An active tenant. -/
def tenant0 : Tenant := { id := 0 }

/-- An active user with password "Abcd1234". -/
def userA : User :=
  { id := 1, tenantId := 0, email := "a@x.com", passwordHash := hash_password "Abcd1234" }

/-- A live session of `userA` for refresh token 100 / jti 4. -/
def sessA : UserSession :=
  { id := 5, userId := 1, refreshTokenHash := hash_refresh_token 100,
    accessTokenJti := 4, expiresAt := 2000 }

/-- A second live session of `userA` for refresh token 101 / jti 7. -/
def sessB : UserSession :=
  { id := 6, userId := 1, refreshTokenHash := hash_refresh_token 101,
    accessTokenJti := 7, expiresAt := 2000 }

/-- An unused reset token of `userA` for raw token 50. -/
def resetTokA : PasswordResetToken :=
  { id := 7, userId := 1, tokenHash := sha256 50, expiresAt := 5000 }

/-- State with `userA`, two live sessions, no reset tokens. -/
def stBase : AuthState :=
  { users := [userA], tenants := [tenant0], sessions := [sessA, sessB],
    resetTokens := [], audit := [], fresh := 10 }

/-- `stBase` plus the unused reset token. -/
def stReset : AuthState := { stBase with resetTokens := [resetTokA] }

/-- A second, older unused reset token of `userA` for raw token 60. -/
def resetTokB : PasswordResetToken :=
  { id := 8, userId := 1, tokenHash := sha256 60, expiresAt := 9000 }

/-- State with `userA` and one prior unused reset token. -/
def stReqReset : AuthState :=
  { users := [userA], tenants := [tenant0], sessions := [],
    resetTokens := [resetTokB], audit := [], fresh := 10 }

/-- State with `userA` only, no sessions. -/
def stFresh : AuthState :=
  { users := [userA], tenants := [tenant0], sessions := [],
    resetTokens := [], audit := [], fresh := 10 }

/-- State whose only user is a deactivated copy of `userA`. -/
def stInactive : AuthState :=
  { users := [{ userA with isActive := false }], tenants := [tenant0], sessions := [],
    resetTokens := [], audit := [], fresh := 10 }

/-- The empty state. -/
def stEmpty : AuthState :=
  { users := [], tenants := [], sessions := [], resetTokens := [], audit := [], fresh := 0 }

/-- `userA` locked until time 1900. -/
def userLocked : User := { userA with lockedUntil := some 1900 }

/-- State whose only user is `userLocked`. -/
def stLocked : AuthState :=
  { users := [userLocked], tenants := [tenant0], sessions := [],
    resetTokens := [], audit := [], fresh := 10 }

/-- State after `n` consecutive wrong-password logins against `stFresh`. -/
def wrongLoginIter : Nat → AuthState
  | 0 => stFresh
  | n + 1 => (login (wrongLoginIter n) "a@x.com" "wrong" 1000).2

/-- A validly signed access token for `userA`, jti 4, expiring at 2000. -/
def tokA : AccessToken :=
  .signed { sub := 1, tenantId := 0, email := "a@x.com", role := "admin",
            jti := 4, iat := 0, exp := 2000, typ := "access" }

/-! Theorems. -/

/-- C10: `validate_access_token` accepts a token with a valid signature,
unexpired and of type "access" even when no session row exists for its
`(sub, jti)` pair — with no matching session, the payload is returned with no
error. -/
theorem C10_validate_without_session
    (st : AuthState) (t : AccessToken) (now : Nat) (p : Payload)
    (hdec : decode_access_token t now = (some p, none))
    (hnone : st.sessions.find?
      (fun s => s.userId == p.sub && s.accessTokenJti == p.jti) = none) :
    validate_access_token st t now = (some p, none) := by
  simp only [validate_access_token, hdec, hnone]

/-- Witness for C10: the empty state and the concrete token `tokA`. -/
theorem C10_validate_without_session_witness :
    decode_access_token tokA 1000 =
      (some { sub := 1, tenantId := 0, email := "a@x.com", role := "admin",
              jti := 4, iat := 0, exp := 2000, typ := "access" }, none) ∧
    stEmpty.sessions.find? (fun s => s.userId == 1 && s.accessTokenJti == 4) = none ∧
    validate_access_token stEmpty tokA 1000 =
      (some { sub := 1, tenantId := 0, email := "a@x.com", role := "admin",
              jti := 4, iat := 0, exp := 2000, typ := "access" }, none) :=
  ⟨by decide, by decide, C10_validate_without_session stEmpty tokA 1000 _
    (by decide) (by decide)⟩

/-- C3: for an active user whose locked_until is set and strictly in the
future, `login` returns ACCOUNT_LOCKED regardless of the supplied password,
without verifying the password and leaving the state (in particular
failed_login_attempts and locked_until) unchanged. -/
theorem C3_login_short_circuits_when_locked
    (st : AuthState) (email password : String) (now t : Nat) (user : User)
    (hfind : st.users.find?
      (fun u => u.email == normalize_email email && u.isActive) = some user)
    (hlock : user.lockedUntil = some t)
    (hfut : now < t) :
    (login st email password now).1.success = false ∧
    (login st email password now).1.errorCode = some "ACCOUNT_LOCKED" ∧
    (login st email password now).2 = st := by
  have hl : lockActive user now = true := by
    simp [lockActive, hlock, hfut]
  simp [login, hfind, hl]

/-- Witness for C3: `userA` locked until 1900, a login with the correct
password at time 1000 is rejected as ACCOUNT_LOCKED and changes nothing. -/
theorem C3_login_short_circuits_when_locked_witness :
    stLocked.users.find?
      (fun u => u.email == normalize_email "a@x.com" && u.isActive) =
        some userLocked ∧
    userLocked.lockedUntil = some 1900 ∧
    (1000 : Nat) < 1900 ∧
    ((login stLocked "a@x.com" "Abcd1234" 1000).1.success = false ∧
     (login stLocked "a@x.com" "Abcd1234" 1000).1.errorCode = some "ACCOUNT_LOCKED" ∧
     (login stLocked "a@x.com" "Abcd1234" 1000).2 = stLocked) :=
  ⟨by decide, by decide, by decide,
   C3_login_short_circuits_when_locked stLocked "a@x.com" "Abcd1234" 1000 1900
     userLocked (by decide) (by decide) (by decide)⟩

/-- C5 counterexample: starting from a fresh user with no failed attempts, the
5th consecutive wrong-password login returns INVALID_CREDENTIALS, not
ACCOUNT_LOCKED, refuting the claim. -/
theorem C5_counterexample :
    (login (wrongLoginIter 4) "a@x.com" "wrong" 1000).1.errorCode =
      some "INVALID_CREDENTIALS" ∧
    (login (wrongLoginIter 4) "a@x.com" "wrong" 1000).1.errorCode ≠
      some "ACCOUNT_LOCKED" := by
  constructor <;> decide

/-- C5 amended: the 5th consecutive wrong-password login still returns
INVALID_CREDENTIALS but sets locked_until 15 minutes ahead; the 6th attempt,
even with the correct password, returns ACCOUNT_LOCKED. -/
theorem C5_amended_lock_scenario :
    (login (wrongLoginIter 4) "a@x.com" "wrong" 1000).1.errorCode =
      some "INVALID_CREDENTIALS" ∧
    (login (wrongLoginIter 4) "a@x.com" "wrong" 1000).2.users.map User.lockedUntil =
      [some (1000 + 15 * 60)] ∧
    (login (wrongLoginIter 5) "a@x.com" "Abcd1234" 1000).1.errorCode =
      some "ACCOUNT_LOCKED" := by
  refine ⟨?_, ?_, ?_⟩ <;> decide

/-- C4 counterexample: `logout` with a malformed access token returns false,
refuting the claim that logout reports success for every input. -/
theorem C4_counterexample :
    (logout stEmpty AccessToken.malformed 1000).1 = false := by decide

/-- C4 amended: `logout` returns true exactly when the access token decodes as
a validly signed, unexpired, access-type token — in particular it still
returns true when no matching session exists or the session is already
revoked — and returns false for malformed, expired or wrong-type tokens. -/
theorem C4_logout_success_iff_decodable
    (st : AuthState) (t : AccessToken) (now : Nat) :
    (logout st t now).1 = (decode_access_token t now).1.isSome := by
  cases t with
  | malformed => simp [logout, decode_access_token]
  | signed p =>
    by_cases h1 : p.exp ≤ now
    · simp [logout, decode_access_token, h1]
    · by_cases h2 : p.typ = "access"
      · cases hf : st.sessions.find? (fun s =>
            s.userId == p.sub && s.accessTokenJti == p.jti && !s.isRevoked) with
        | none => simp [logout, decode_access_token, h1, h2, hf]
        | some sess => simp [logout, decode_access_token, h1, h2, hf]
      · simp [logout, decode_access_token, h1, h2]

/-- C9 counterexample: in a state whose only user is a deactivated user with
email "a@x.com", `signup` with the same (case-insensitively equal) email
succeeds rather than failing with EMAIL_EXISTS, refuting the claim that
deactivated users' emails block signup. -/
theorem C9_counterexample :
    (signup stInactive
      { email := "A@x.com", password := "Abcd1234", fullName := "Jane" } 1000).1.success
        = true ∧
    (signup stInactive
      { email := "A@x.com", password := "Abcd1234", fullName := "Jane" } 1000).1.errorCode
        ≠ some "EMAIL_EXISTS" := by
  constructor <;> decide

/-- C9 amended: for a well-formed email and a policy-compliant password,
`signup` fails with EMAIL_EXISTS exactly when some existing ACTIVE user has
the normalized email; emails held only by deactivated users do not block
signup. -/
theorem C9_email_exists_iff_active_user
    (st : AuthState) (data : SignupData) (now : Nat)
    (hvalid : valid_email (normalize_email data.email) = true)
    (hpw : (validate_password_strength data.password).1 = true) :
    ((signup st data now).1.errorCode = some "EMAIL_EXISTS" ↔
      ∃ u ∈ st.users, u.email = normalize_email data.email ∧ u.isActive = true) := by
  have hexists : (∃ u ∈ st.users, u.email = normalize_email data.email ∧ u.isActive = true)
      ↔ (st.users.find? (fun u => u.email == normalize_email data.email && u.isActive)).isSome := by
    rw [List.find?_isSome]
    constructor
    · rintro ⟨u, hu, he, ha⟩
      exact ⟨u, hu, by simp [he, ha]⟩
    · rintro ⟨u, hu, hp⟩
      simp only [Bool.and_eq_true, beq_iff_eq] at hp
      exact ⟨u, hu, hp.1, hp.2⟩
  rw [hexists]
  cases hf : (st.users.find? (fun u => u.email == normalize_email data.email && u.isActive)).isSome with
  | true => simp [signup, hvalid, hpw, hf]
  | false => simp [signup, hvalid, hpw, hf]

/-- Witness for C9 amended: the concrete deactivated-user state. -/
theorem C9_email_exists_iff_active_user_witness :
    valid_email (normalize_email "A@x.com") = true ∧
    (validate_password_strength "Abcd1234").1 = true ∧
    ((signup stInactive
        { email := "A@x.com", password := "Abcd1234", fullName := "Jane" } 1000).1.errorCode
          = some "EMAIL_EXISTS" ↔
      ∃ u ∈ stInactive.users,
        u.email = normalize_email "A@x.com" ∧ u.isActive = true) :=
  ⟨by decide, by decide,
   C9_email_exists_iff_active_user stInactive
     { email := "A@x.com", password := "Abcd1234", fullName := "Jane" } 1000
     (by decide) (by decide)⟩

/-- C6 counterexample: `userA` has two live sessions (jti 4 — the caller's —
and jti 7); a successful `change_password` with logout_other_sessions = true
revokes BOTH, so the caller's own session does not remain active. -/
theorem C6_counterexample :
    (change_password stBase 1 "Abcd1234" "NewPass123" true 1000).1 = (true, none) ∧
    (change_password stBase 1 "Abcd1234" "NewPass123" true 1000).2.sessions.map
      UserSession.isRevoked = [true, true] := by
  constructor <;> decide

/-- Helper: `logout_all_sessions` with no excepted jti leaves no unrevoked
session of the user. -/
theorem logout_all_sessions_no_exception_revokes
    (st : AuthState) (uid now : Nat) :
    ∀ s ∈ (logout_all_sessions st uid none now).2.sessions,
      s.userId = uid → s.isRevoked = true := by
  intro s hs hu
  simp only [logout_all_sessions, List.mem_map] at hs
  obtain ⟨a, _, rfl⟩ := hs
  by_cases hr : shouldRevokeAll uid none a = true
  · simp [hr]
  · rw [if_neg hr] at hu ⊢
    have himp : a.userId = uid → a.isRevoked = true := by
      simp only [shouldRevokeAll, Bool.and_true, Bool.and_eq_true, beq_iff_eq,
        Bool.not_eq_true', not_and] at hr
      intro h
      simpa using hr h
    exact himp hu

/-- C6 amended: a successful `change_password` with
logout_other_sessions = true revokes every session of the user, the caller's
own session included — the source passes no except_current_jti to
`logout_all_sessions`. -/
theorem C6_change_password_revokes_all
    (st : AuthState) (userId : Nat) (currentPw newPw : String) (now : Nat) (user : User)
    (hfind : st.users.find? (fun u => u.id == userId) = some user)
    (hver : verify_password currentPw user.passwordHash = true)
    (hpw : (validate_password_strength newPw).1 = true) :
    (change_password st userId currentPw newPw true now).1 = (true, none) ∧
    ∀ s ∈ (change_password st userId currentPw newPw true now).2.sessions,
      s.userId = userId → s.isRevoked = true := by
  refine ⟨by simp [change_password, hfind, hver, hpw], ?_⟩
  intro s hs hu
  simp only [change_password, hfind, hver, hpw] at hs
  simp only [Bool.not_true, if_true, if_false] at hs
  exact logout_all_sessions_no_exception_revokes _ userId now s (by simpa using hs) hu

/-- Witness for C6 amended: both of `userA`'s sessions are revoked. -/
theorem C6_change_password_revokes_all_witness :
    stBase.users.find? (fun u => u.id == 1) = some userA ∧
    verify_password "Abcd1234" userA.passwordHash = true ∧
    (validate_password_strength "NewPass123").1 = true ∧
    ((change_password stBase 1 "Abcd1234" "NewPass123" true 1000).1 = (true, none) ∧
     ∀ s ∈ (change_password stBase 1 "Abcd1234" "NewPass123" true 1000).2.sessions,
       s.userId = 1 → s.isRevoked = true) :=
  ⟨by decide, by decide, by decide,
   C6_change_password_revokes_all stBase 1 "Abcd1234" "NewPass123" 1000 userA
     (by decide) (by decide) (by decide)⟩


/-- C1: a successful `refresh_tokens` call revokes the old session with
reason "rotated" and creates a new session bound to a freshly generated token
pair; a second `refresh_tokens` call with the same refresh token then fails
with INVALID_REFRESH_TOKEN.  `huniq` is the §3 invariant that the refresh-token
hash is unique across non-revoked sessions; `hfresh` states that the freshly
generated refresh token hashes differently from the presented one. -/
theorem C1_refresh_rotation
    (st : AuthState) (rt now now2 : Nat) (sess : UserSession) (user : User)
    (tenant : Tenant)
    (hfind : st.sessions.find?
      (fun s => s.refreshTokenHash == hash_refresh_token rt && !s.isRevoked) = some sess)
    (hexp : ¬ sess.expiresAt < now)
    (huser : st.users.find? (fun u => u.id == sess.userId) = some user)
    (huact : user.isActive = true)
    (htenant : st.tenants.find? (fun t => t.id == user.tenantId) = some tenant)
    (htact : tenant.isActive = true)
    (huniq : ∀ s ∈ st.sessions, s.isRevoked = false →
      s.refreshTokenHash = hash_refresh_token rt → s.id = sess.id)
    (hfresh : hash_refresh_token (st.fresh + 1) ≠ hash_refresh_token rt) :
    (refresh_tokens st rt now).1.success = true ∧
    { sess with isRevoked := true, revokedAt := some now,
                revokedReason := some "rotated", lastUsedAt := some now } ∈
      (refresh_tokens st rt now).2.sessions ∧
    (∃ tp, (refresh_tokens st rt now).1.tokens = some tp ∧
      tp.refreshToken = st.fresh + 1 ∧
      ({ id := st.fresh + 2, userId := user.id,
         refreshTokenHash := hash_refresh_token (st.fresh + 1),
         accessTokenJti := st.fresh,
         expiresAt := now + JWT_REFRESH_TOKEN_EXPIRES } : UserSession) ∈
        (refresh_tokens st rt now).2.sessions) ∧
    (refresh_tokens (refresh_tokens st rt now).2 rt now2).1.success = false ∧
    (refresh_tokens (refresh_tokens st rt now).2 rt now2).1.errorCode =
      some "INVALID_REFRESH_TOKEN" := by
  have hsess_mem : sess ∈ st.sessions := List.mem_of_find?_eq_some hfind
  have hstep : refresh_tokens st rt now =
      ({ success := true, user := some user, tokens := some
          { accessToken := .signed
              { sub := user.id, tenantId := tenant.id, email := user.email,
                role := user.role, jti := st.fresh, iat := now,
                exp := now + JWT_ACCESS_TOKEN_EXPIRES, typ := "access" },
            refreshToken := st.fresh + 1,
            accessExpiresAt := now + JWT_ACCESS_TOKEN_EXPIRES,
            refreshExpiresAt := now + JWT_REFRESH_TOKEN_EXPIRES } },
       { users := st.users, tenants := st.tenants,
         sessions := (st.sessions.map (fun s =>
             if s.id == sess.id then
               { s with isRevoked := true, revokedAt := some now,
                        revokedReason := some "rotated", lastUsedAt := some now }
             else s)) ++
           [{ id := st.fresh + 2, userId := user.id,
              refreshTokenHash := hash_refresh_token (st.fresh + 1),
              accessTokenJti := st.fresh,
              expiresAt := now + JWT_REFRESH_TOKEN_EXPIRES }],
         resetTokens := st.resetTokens, audit := st.audit,
         fresh := st.fresh + 3 }) := by
    simp only [refresh_tokens, hfind, if_neg hexp, huser, huact, htenant, htact,
      Bool.not_true, Bool.false_eq_true, if_false, create_token_pair]
  have hnone2 :
      ((st.sessions.map (fun s =>
          if s.id == sess.id then
            { s with isRevoked := true, revokedAt := some now,
                     revokedReason := some "rotated", lastUsedAt := some now }
          else s)) ++
        [{ id := st.fresh + 2, userId := user.id,
           refreshTokenHash := hash_refresh_token (st.fresh + 1),
           accessTokenJti := st.fresh,
           expiresAt := now + JWT_REFRESH_TOKEN_EXPIRES : UserSession }]).find?
        (fun s => s.refreshTokenHash == hash_refresh_token rt && !s.isRevoked) = none := by
    rw [List.find?_eq_none]
    intro x hx
    rcases List.mem_append.1 hx with hx | hx
    · obtain ⟨a, ha, rfl⟩ := List.mem_map.1 hx
      by_cases hid : (a.id == sess.id) = true
      · simp [hid]
      · rw [if_neg hid]
        intro hpred
        simp only [Bool.and_eq_true, beq_iff_eq, Bool.not_eq_true'] at hpred
        exact hid (by simp [huniq a ha hpred.2 hpred.1])
    · rcases List.mem_singleton.1 hx with rfl
      simp [hfresh]
  rw [hstep]
  refine ⟨rfl, ?_, ?_, ?_, ?_⟩
  · apply List.mem_append_left
    exact List.mem_map.mpr ⟨sess, hsess_mem, by simp⟩
  · exact ⟨_, rfl, rfl, List.mem_append_right _ (List.mem_singleton.mpr rfl)⟩
  · simp only [refresh_tokens, hnone2]
  · simp only [refresh_tokens, hnone2]

/-- Witness for C1: concrete rotation of `sessA` (token 100) in `stBase`. -/
theorem C1_refresh_rotation_witness :
    stBase.sessions.find?
      (fun s => s.refreshTokenHash == hash_refresh_token 100 && !s.isRevoked) = some sessA ∧
    ¬ sessA.expiresAt < 1000 ∧
    stBase.users.find? (fun u => u.id == sessA.userId) = some userA ∧
    userA.isActive = true ∧
    stBase.tenants.find? (fun t => t.id == userA.tenantId) = some tenant0 ∧
    tenant0.isActive = true ∧
    (∀ s ∈ stBase.sessions, s.isRevoked = false →
      s.refreshTokenHash = hash_refresh_token 100 → s.id = sessA.id) ∧
    hash_refresh_token (stBase.fresh + 1) ≠ hash_refresh_token 100 ∧
    ((refresh_tokens stBase 100 1000).1.success = true ∧
     { sessA with isRevoked := true, revokedAt := some 1000,
                  revokedReason := some "rotated", lastUsedAt := some 1000 } ∈
       (refresh_tokens stBase 100 1000).2.sessions ∧
     (∃ tp, (refresh_tokens stBase 100 1000).1.tokens = some tp ∧
       tp.refreshToken = stBase.fresh + 1 ∧
       ({ id := stBase.fresh + 2, userId := userA.id,
          refreshTokenHash := hash_refresh_token (stBase.fresh + 1),
          accessTokenJti := stBase.fresh,
          expiresAt := 1000 + JWT_REFRESH_TOKEN_EXPIRES } : UserSession) ∈
         (refresh_tokens stBase 100 1000).2.sessions) ∧
     (refresh_tokens (refresh_tokens stBase 100 1000).2 100 1001).1.success = false ∧
     (refresh_tokens (refresh_tokens stBase 100 1000).2 100 1001).1.errorCode =
       some "INVALID_REFRESH_TOKEN") :=
  ⟨by decide, by decide, by decide, by decide, by decide, by decide, by decide, by decide,
   C1_refresh_rotation stBase 100 1000 1001 sessA userA tenant0
     (by decide) (by decide) (by decide) (by decide) (by decide) (by decide)
     (by decide) (by decide)⟩

/-- C2: a successful `reset_password` revokes (reason "password_reset") every
not-already-revoked session of the token's user, and an access token for that
user which decodes successfully and matches a session of that user fails
`validate_access_token` afterwards with the revoked-token error. -/
theorem C2_reset_password_invalidates_sessions
    (st : AuthState) (tok : Nat) (pw : String) (now now2 : Nat)
    (atk : AccessToken) (p : Payload) (rt : PasswordResetToken) (user : User)
    (hpw : (validate_password_strength pw).1 = true)
    (hfind : st.resetTokens.find? (fun t => t.tokenHash == sha256 tok && !t.used) = some rt)
    (hexp : ¬ rt.expiresAt < now)
    (huser : st.users.find? (fun u => u.id == rt.userId) = some user)
    (huact : user.isActive = true)
    (hdec : decode_access_token atk now2 = (some p, none))
    (hsub : p.sub = user.id)
    (hsess : ∃ s ∈ st.sessions, s.userId = p.sub ∧ s.accessTokenJti = p.jti) :
    (reset_password st tok pw now).1 = (true, none) ∧
    (∀ s ∈ (reset_password st tok pw now).2.sessions,
        s.userId = user.id → s.isRevoked = true) ∧
    (∀ s ∈ st.sessions, s.userId = user.id → s.isRevoked = false →
        { s with isRevoked := true, revokedAt := some now,
                 revokedReason := some "password_reset" } ∈
          (reset_password st tok pw now).2.sessions) ∧
    validate_access_token (reset_password st tok pw now).2 atk now2 =
      (none, some "Token has been revoked") := by
  have hstep : reset_password st tok pw now =
      ((true, none),
       { users := st.users.map (fun u =>
           if u.id == user.id then
             { u with passwordHash := hash_password pw,
                      failedLoginAttempts := 0, lockedUntil := none }
           else u),
         tenants := st.tenants,
         sessions := st.sessions.map (fun s =>
           if s.userId == user.id && !s.isRevoked then
             { s with isRevoked := true, revokedAt := some now,
                      revokedReason := some "password_reset" }
           else s),
         resetTokens := st.resetTokens.map (fun t =>
           if t.id == rt.id then { t with used := true, usedAt := some now } else t),
         audit := st.audit ++ ["user.password_reset_completed"],
         fresh := st.fresh }) := by
    simp only [reset_password, hpw, hfind, if_neg hexp, huser, huact,
      Bool.not_true, Bool.false_eq_true, if_false]
  rw [hstep]
  have hall : ∀ s ∈ st.sessions.map (fun s =>
      if s.userId == user.id && !s.isRevoked then
        { s with isRevoked := true, revokedAt := some now,
                 revokedReason := some "password_reset" }
      else s), s.userId = user.id → s.isRevoked = true := by
    intro s hs hu
    obtain ⟨a, _, rfl⟩ := List.mem_map.1 hs
    by_cases hcond : (a.userId == user.id && !a.isRevoked) = true
    · simp [hcond]
    · rw [if_neg hcond] at hu ⊢
      simp only [Bool.and_eq_true, beq_iff_eq, Bool.not_eq_true'] at hcond
      by_cases hrev : a.isRevoked = true
      · exact hrev
      · exact absurd ⟨hu, by simpa using hrev⟩ hcond
  refine ⟨rfl, hall, ?_, ?_⟩
  · intro s hs hu hnr
    refine List.mem_map.mpr ⟨s, hs, ?_⟩
    rw [if_pos (by simp [hu, hnr])]
  · simp only [validate_access_token, hdec]
    have hex : ∃ x ∈ st.sessions.map (fun s =>
        if s.userId == user.id && !s.isRevoked then
          { s with isRevoked := true, revokedAt := some now,
                   revokedReason := some "password_reset" }
        else s),
        (fun s => s.userId == p.sub && s.accessTokenJti == p.jti) x = true := by
      obtain ⟨s, hs, hsu, hsj⟩ := hsess
      refine ⟨_, List.mem_map.mpr ⟨s, hs, rfl⟩, ?_⟩
      by_cases hcond : (s.userId == user.id && !s.isRevoked) = true
      · rw [if_pos hcond]
        simp [hsu, hsj]
      · rw [if_neg hcond]
        simp [hsu, hsj]
    have hsome := List.find?_isSome.mpr hex
    obtain ⟨s0, h0⟩ := Option.isSome_iff_exists.mp hsome
    have hpred := List.find?_some h0
    simp only [Bool.and_eq_true, beq_iff_eq] at hpred
    have hmem0 := List.mem_of_find?_eq_some h0
    have hrev0 : s0.isRevoked = true := hall s0 hmem0 (by rw [hpred.1, hsub])
    rw [h0]
    simp [hrev0]

/-- Witness for C2: resetting with token 50 in `stReset` revokes both of
`userA`'s sessions and `tokA` is rejected as revoked afterwards. -/
theorem C2_reset_password_invalidates_sessions_witness :
    (validate_password_strength "NewPass123").1 = true ∧
    stReset.resetTokens.find? (fun t => t.tokenHash == sha256 50 && !t.used) =
      some resetTokA ∧
    ¬ resetTokA.expiresAt < 1000 ∧
    stReset.users.find? (fun u => u.id == resetTokA.userId) = some userA ∧
    userA.isActive = true ∧
    decode_access_token tokA 1000 =
      (some { sub := 1, tenantId := 0, email := "a@x.com", role := "admin",
              jti := 4, iat := 0, exp := 2000, typ := "access" }, none) ∧
    (1 : Nat) = userA.id ∧
    (∃ s ∈ stReset.sessions, s.userId = 1 ∧ s.accessTokenJti = 4) ∧
    ((reset_password stReset 50 "NewPass123" 1000).1 = (true, none) ∧
     (∀ s ∈ (reset_password stReset 50 "NewPass123" 1000).2.sessions,
         s.userId = userA.id → s.isRevoked = true) ∧
     (∀ s ∈ stReset.sessions, s.userId = userA.id → s.isRevoked = false →
         { s with isRevoked := true, revokedAt := some 1000,
                  revokedReason := some "password_reset" } ∈
           (reset_password stReset 50 "NewPass123" 1000).2.sessions) ∧
     validate_access_token (reset_password stReset 50 "NewPass123" 1000).2 tokA 1000 =
       (none, some "Token has been revoked")) :=
  ⟨by decide, by decide, by decide, by decide, by decide, by decide, by decide, by decide,
   C2_reset_password_invalidates_sessions stReset 50 "NewPass123" 1000 1000 tokA
     { sub := 1, tenantId := 0, email := "a@x.com", role := "admin",
       jti := 4, iat := 0, exp := 2000, typ := "access" } resetTokA userA
     (by decide) (by decide) (by decide) (by decide) (by decide) (by decide)
     (by decide) (by decide)⟩

/-- C8: a successful `reset_password` with token `tok` marks the token record
used, and every subsequent `reset_password` call with the same token fails:
the token is no longer found among unused tokens.  `huniq` states that at most
one stored record carries this token hash. -/
theorem C8_reset_token_single_use
    (st : AuthState) (tok : Nat) (pw : String) (now : Nat)
    (rt : PasswordResetToken) (user : User)
    (hpw : (validate_password_strength pw).1 = true)
    (hfind : st.resetTokens.find? (fun t => t.tokenHash == sha256 tok && !t.used) = some rt)
    (hexp : ¬ rt.expiresAt < now)
    (huser : st.users.find? (fun u => u.id == rt.userId) = some user)
    (huact : user.isActive = true)
    (huniq : ∀ t ∈ st.resetTokens, t.tokenHash = sha256 tok → t.id = rt.id) :
    (reset_password st tok pw now).1 = (true, none) ∧
    { rt with used := true, usedAt := some now } ∈
      (reset_password st tok pw now).2.resetTokens ∧
    (∀ pw2 now2,
      (reset_password (reset_password st tok pw now).2 tok pw2 now2).1.1 = false) := by
  have hrt_mem : rt ∈ st.resetTokens := List.mem_of_find?_eq_some hfind
  have hstep : reset_password st tok pw now =
      ((true, none),
       { users := st.users.map (fun u =>
           if u.id == user.id then
             { u with passwordHash := hash_password pw,
                      failedLoginAttempts := 0, lockedUntil := none }
           else u),
         tenants := st.tenants,
         sessions := st.sessions.map (fun s =>
           if s.userId == user.id && !s.isRevoked then
             { s with isRevoked := true, revokedAt := some now,
                      revokedReason := some "password_reset" }
           else s),
         resetTokens := st.resetTokens.map (fun t =>
           if t.id == rt.id then { t with used := true, usedAt := some now } else t),
         audit := st.audit ++ ["user.password_reset_completed"],
         fresh := st.fresh }) := by
    simp only [reset_password, hpw, hfind, if_neg hexp, huser, huact,
      Bool.not_true, Bool.false_eq_true, if_false]
  rw [hstep]
  have hnone2 :
      (st.resetTokens.map (fun t =>
        if t.id == rt.id then { t with used := true, usedAt := some now } else t)).find?
        (fun t => t.tokenHash == sha256 tok && !t.used) = none := by
    rw [List.find?_eq_none]
    intro x hx
    obtain ⟨a, ha, rfl⟩ := List.mem_map.1 hx
    intro hpredx
    by_cases hid : (a.id == rt.id) = true
    · rw [if_pos hid] at hpredx
      simp at hpredx
    · rw [if_neg hid] at hpredx
      simp only [Bool.and_eq_true, beq_iff_eq, Bool.not_eq_true'] at hpredx
      exact hid (by simp [huniq a ha hpredx.1])
  refine ⟨rfl, ?_, ?_⟩
  · exact List.mem_map.mpr ⟨rt, hrt_mem, by simp⟩
  · intro pw2 now2
    by_cases hv2 : (validate_password_strength pw2).1 = true
    · simp only [reset_password, hv2, hnone2, Bool.not_true, Bool.false_eq_true, if_false]
    · simp only [reset_password]
      rw [if_pos (by simp [Bool.not_eq_true'] at hv2 ⊢; exact hv2)]

/-- Witness for C8: token 50 in `stReset`, then a second reset with the same
token at time 1001 fails. -/
theorem C8_reset_token_single_use_witness :
    (validate_password_strength "NewPass123").1 = true ∧
    stReset.resetTokens.find? (fun t => t.tokenHash == sha256 50 && !t.used) =
      some resetTokA ∧
    ¬ resetTokA.expiresAt < 1000 ∧
    stReset.users.find? (fun u => u.id == resetTokA.userId) = some userA ∧
    userA.isActive = true ∧
    (∀ t ∈ stReset.resetTokens, t.tokenHash = sha256 50 → t.id = resetTokA.id) ∧
    ((reset_password stReset 50 "NewPass123" 1000).1 = (true, none) ∧
     { resetTokA with used := true, usedAt := some 1000 } ∈
       (reset_password stReset 50 "NewPass123" 1000).2.resetTokens ∧
     (reset_password (reset_password stReset 50 "NewPass123" 1000).2
        50 "OtherPass9" 1001).1.1 = false) :=
  ⟨by decide, by decide, by decide, by decide, by decide, by decide,
   by
     obtain ⟨h1, h2, h3⟩ :=
       C8_reset_token_single_use stReset 50 "NewPass123" 1000 resetTokA userA
         (by decide) (by decide) (by decide) (by decide) (by decide) (by decide)
     exact ⟨h1, h2, h3 "OtherPass9" 1001⟩⟩

/-- Helper: mapping a function that either fixes a reset token or marks it
used preserves the at-most-one-usable-per-user property of a token list. -/
theorem usable_unique_map_markUsed
    (l : List PasswordResetToken) (f : PasswordResetToken → PasswordResetToken) (now : Nat)
    (hf : ∀ a, f a = a ∨ (f a).used = true)
    (h : ∀ t1 ∈ l, ∀ t2 ∈ l, t1.userId = t2.userId →
      usableResetToken t1 now = true → usableResetToken t2 now = true → t1 = t2) :
    ∀ t1 ∈ l.map f, ∀ t2 ∈ l.map f, t1.userId = t2.userId →
      usableResetToken t1 now = true → usableResetToken t2 now = true → t1 = t2 := by
  intro t1 h1 t2 h2 hu hu1 hu2
  obtain ⟨a, ha, rfl⟩ := List.mem_map.1 h1
  obtain ⟨b, hb, rfl⟩ := List.mem_map.1 h2
  have hna : (f a).used = false := by
    simp only [usableResetToken, Bool.and_eq_true, Bool.not_eq_true',
      decide_eq_true_eq] at hu1
    exact hu1.1
  have hnb : (f b).used = false := by
    simp only [usableResetToken, Bool.and_eq_true, Bool.not_eq_true',
      decide_eq_true_eq] at hu2
    exact hu2.1
  have hfa : f a = a := (hf a).resolve_right (by rw [hna]; simp)
  have hfb : f b = b := (hf b).resolve_right (by rw [hnb]; simp)
  rw [hfa] at hu1 hu ⊢
  rw [hfb] at hu2 hu ⊢
  exact h a ha b hb hu hu1 hu2

/-- C7: `request_password_reset` for an existing active user first marks every
prior unused reset token of that user used, then creates exactly one new token
expiring one hour from creation; the at-most-one-usable-token-per-user
invariant is preserved both by this operation and by `reset_password`. -/
theorem C7_single_usable_reset_token
    (st : AuthState) (email : String) (now : Nat) (user : User) (tenant : Tenant)
    (hfind : st.users.find?
      (fun u => pyLower u.email == pyLower email && u.isActive) = some user)
    (htenant : st.tenants.find? (fun t => t.id == user.tenantId) = some tenant)
    (htact : tenant.isActive = true) :
    (request_password_reset st email now).1 = (true, some st.fresh) ∧
    ({ id := st.fresh + 1, userId := user.id, tokenHash := sha256 st.fresh,
       expiresAt := now + 60 * 60 } : PasswordResetToken) ∈
      (request_password_reset st email now).2.resetTokens ∧
    (∀ t ∈ (request_password_reset st email now).2.resetTokens,
        t.userId = user.id → t.used = false → t.id = st.fresh + 1) ∧
    (atMostOneUsable st now → atMostOneUsable (request_password_reset st email now).2 now) ∧
    (∀ tok pw now2, atMostOneUsable st now2 →
        atMostOneUsable (reset_password st tok pw now2).2 now2) := by
  have hstep : request_password_reset st email now =
      ((true, some st.fresh),
       { users := st.users, tenants := st.tenants, sessions := st.sessions,
         resetTokens := (st.resetTokens.map (fun t =>
             if t.userId == user.id && !t.used then
               { t with used := true, usedAt := some now }
             else t)) ++
           [{ id := st.fresh + 1, userId := user.id, tokenHash := sha256 st.fresh,
              expiresAt := now + 60 * 60 }],
         audit := st.audit ++ ["user.password_reset_requested"],
         fresh := st.fresh + 2 }) := by
    simp only [request_password_reset, hfind, htenant, htact,
      Bool.not_true, Bool.false_eq_true, if_false]
  refine ⟨by rw [hstep], by rw [hstep]; exact List.mem_append_right _ (by simp), ?_, ?_, ?_⟩
  · rw [hstep]
    intro t ht hu hun
    rcases List.mem_append.1 ht with ht | ht
    · obtain ⟨a, ha, rfl⟩ := List.mem_map.1 ht
      by_cases hcond : (a.userId == user.id && !a.used) = true
      · rw [if_pos hcond] at hun
        cases hun
      · rw [if_neg hcond] at hu hun
        exact absurd (by simp [hu, hun]) hcond
    · rcases List.mem_singleton.1 ht with rfl
      rfl
  · rw [hstep]
    intro hinv
    intro t1 h1 t2 h2 hu hu1 hu2
    have hmaponly := usable_unique_map_markUsed st.resetTokens
      (fun t => if t.userId == user.id && !t.used then
        { t with used := true, usedAt := some now } else t) now
      (fun a => by
        by_cases hcond : (a.userId == user.id && !a.used) = true
        · right; simp [hcond]
        · left; simp [hcond])
      hinv
    have husable_not_user : ∀ x ∈ st.resetTokens.map (fun t =>
        if t.userId == user.id && !t.used then
          { t with used := true, usedAt := some now } else t),
        usableResetToken x now = true → x.userId ≠ user.id := by
      intro x hx hux
      obtain ⟨a, ha, rfl⟩ := List.mem_map.1 hx
      by_cases hcond : (a.userId == user.id && !a.used) = true
      · rw [if_pos hcond] at hux
        simp [usableResetToken] at hux
      · rw [if_neg hcond] at hux ⊢
        intro hau
        simp only [usableResetToken, Bool.and_eq_true, Bool.not_eq_true',
          decide_eq_true_eq] at hux
        exact absurd (by simp [hau, hux.1]) hcond
    rcases List.mem_append.1 h1 with h1' | h1' <;>
      rcases List.mem_append.1 h2 with h2' | h2'
    · exact hmaponly t1 h1' t2 h2' hu hu1 hu2
    · rcases List.mem_singleton.1 h2' with rfl
      exact absurd (by simpa using hu) (husable_not_user t1 h1' hu1)
    · rcases List.mem_singleton.1 h1' with rfl
      exact absurd (by simpa using hu.symm) (husable_not_user t2 h2' hu2)
    · rw [List.mem_singleton.1 h1', List.mem_singleton.1 h2']
  · intro tok pw now2 hinv
    by_cases hv : (validate_password_strength pw).1 = true
    · cases hrt : st.resetTokens.find? (fun t => t.tokenHash == sha256 tok && !t.used) with
      | none =>
        have hid : (reset_password st tok pw now2).2 = st := by
          simp [reset_password, hv, hrt]
        rwa [hid]
      | some rt2 =>
        by_cases hexp2 : rt2.expiresAt < now2
        · have hid : (reset_password st tok pw now2).2 = st := by
            simp [reset_password, hv, hrt, hexp2]
          rwa [hid]
        · cases hus : st.users.find? (fun u => u.id == rt2.userId) with
          | none =>
            have hid : (reset_password st tok pw now2).2 = st := by
              simp [reset_password, hv, hrt, hexp2, hus]
            rwa [hid]
          | some u2 =>
            by_cases hact2 : u2.isActive = true
            · have hform : (reset_password st tok pw now2).2.resetTokens =
                  st.resetTokens.map (fun t =>
                    if t.id == rt2.id then
                      { t with used := true, usedAt := some now2 }
                    else t) := by
                simp [reset_password, hv, hrt, hexp2, hus, hact2]
              intro t1 h1 t2 h2 hu hu1 hu2
              rw [hform] at h1 h2
              exact usable_unique_map_markUsed st.resetTokens _ now2
                (fun a => by
                  by_cases hcond : (a.id == rt2.id) = true
                  · right; simp [hcond]
                  · left; simp [hcond])
                hinv t1 h1 t2 h2 hu hu1 hu2
            · have hact2' : u2.isActive = false := by simpa using hact2
              have hid : (reset_password st tok pw now2).2 = st := by
                simp [reset_password, hv, hrt, hexp2, hus, hact2']
              rwa [hid]
    · have hv' : (validate_password_strength pw).1 = false := by simpa using hv
      have hid : (reset_password st tok pw now2).2 = st := by
        simp [reset_password, hv']
      rwa [hid]

/-- Witness for C7: requesting a reset for `userA` in `stReqReset` supersedes
the prior token 60 and creates the single new usable token. -/
theorem C7_single_usable_reset_token_witness :
    stReqReset.users.find?
      (fun u => pyLower u.email == pyLower "a@x.com" && u.isActive) = some userA ∧
    stReqReset.tenants.find? (fun t => t.id == userA.tenantId) = some tenant0 ∧
    tenant0.isActive = true ∧
    ((request_password_reset stReqReset "a@x.com" 1000).1 = (true, some stReqReset.fresh) ∧
     ({ id := stReqReset.fresh + 1, userId := userA.id, tokenHash := sha256 stReqReset.fresh,
        expiresAt := 1000 + 60 * 60 } : PasswordResetToken) ∈
       (request_password_reset stReqReset "a@x.com" 1000).2.resetTokens ∧
     (∀ t ∈ (request_password_reset stReqReset "a@x.com" 1000).2.resetTokens,
         t.userId = userA.id → t.used = false → t.id = stReqReset.fresh + 1) ∧
     (atMostOneUsable stReqReset 1000 →
       atMostOneUsable (request_password_reset stReqReset "a@x.com" 1000).2 1000) ∧
     (atMostOneUsable stReqReset 1000 →
       atMostOneUsable (reset_password stReqReset 60 "OtherPass9" 1000).2 1000)) :=
  ⟨by decide, by decide, by decide,
   by
     obtain ⟨h1, h2, h3, h4, h5⟩ :=
       C7_single_usable_reset_token stReqReset "a@x.com" 1000 userA tenant0
         (by decide) (by decide) (by decide)
     exact ⟨h1, h2, h3, h4, h5 60 "OtherPass9" 1000⟩⟩
